import Mathlib

/-!
Verification of the FunASR websocket session driver
(`runtime/python/websocket/funasr_wss_server.py`).

The per-connection handler `ws_serve` is embedded shallowly: the mutable
attributes attached to the websocket object plus the handler-local variables
form a `Session`; each inbound websocket message (text control frame or
binary audio frame) is processed by a pure step function.  The inference
engines (VAD, online ASR, offline ASR, punctuation) are external black boxes:
their behaviour on a given call is supplied by an `Env` oracle (one outcome
per engine per processed message), covering both normal returns and raised
exceptions.  Exceptions that escape per-message handling (the ones not caught
inside the receive loop) are modelled by `Except PyErr`, terminating the
session like the generic handler of `ws_serve` does.
-/

namespace FunasrWss

/-- A binary audio frame: the raw byte values of one binary websocket
message (`bytes` in Python). -/
abbrev Frame := List Nat

/-- Python exceptions that escape the per-message handling inside the
receive loop of `ws_serve` and are caught only by the generic
`except Exception` handler, which ends the session. -/
inductive PyErr where
  | zeroDivisionError
  | nameError
  deriving Repr, DecidableEq

/-- One outbound websocket message (`await websocket.send(...)`): either the
heartbeat `{"type":"pong"}` reply or a recognition result
`{"mode":…, "text":…, "wav_name":…, "is_final":…}`. -/
inductive OutMsg where
  | pong
  | result (mode : String) (text : String) (wavName : String) (final : Bool)
  deriving Repr, DecidableEq

/-- The `is_final` field of an outbound message (`none` for a pong). -/
def OutMsg.finalFlag : OutMsg → Option Bool
  | .pong => none
  | .result _ _ _ fin => some fin

/-- The `mode` field of an outbound message (`none` for a pong). -/
def OutMsg.modeField : OutMsg → Option String
  | .pong => none
  | .result md _ _ _ => some md

/-- Per-connection session state: the attributes `ws_serve` attaches to the
websocket object (lines 190-198 of `funasr_wss_server.py`) together with the
handler-local loop variables (lines 199-203).  Engine caches are opaque
tokens modelled as `Nat`, with `0` standing for the freshly created empty
dict `{}`.  `speechStartI` models the local `speech_start_i`, which is *not*
initialised before the loop (hence `Option Int`: reading it while `none`
raises a `NameError`).  The two `…SinceOnline` fields are specification
ghost state used only to state invariants: they record whether the client
declared `is_speaking = false`, respectively whether VAD reported a speech
end, since the online pass was last invoked; they influence no behaviour. -/
structure Session where
  hotword : Option String
  asrOnlineCache : Nat
  asrOnlineFinal : Bool
  asrOnlineChunkSize : List Int
  vadCache : Nat
  puncCache : Nat
  chunkInterval : Int
  vadPreIdx : Nat
  wavName : String
  mode : String
  isSpeaking : Bool
  speechStart : Bool
  speechStartI : Option Int
  speechEndI : Int
  frames : List Frame
  framesAsr : List Frame
  framesAsrOnline : List Frame
  stopDeclaredSinceOnline : Bool
  vadEndSinceOnline : Bool
  deriving Repr, DecidableEq

/-- The session state as initialised at connection accept
(lines 190-203 of `funasr_wss_server.py`). -/
def initSession : Session where
  hotword := none
  asrOnlineCache := 0
  asrOnlineFinal := false
  asrOnlineChunkSize := [5, 10, 5]
  vadCache := 0
  puncCache := 0
  chunkInterval := 10
  vadPreIdx := 0
  wavName := "microphone"
  mode := "2pass"
  isSpeaking := true
  speechStart := false
  speechStartI := none
  speechEndI := -1
  frames := []
  framesAsr := []
  framesAsrOnline := []
  stopDeclaredSinceOnline := false
  vadEndSinceOnline := false

/-- Oracle for the behaviour of the four external inference engines during
the processing of one inbound message: for each engine, whether its
`generate` call (if reached) raises, and otherwise the text / segments and
the updated opaque cache it leaves behind.  The offline ASR model keeps no
cache (`status_dict_asr` carries only the hotword). -/
structure Env where
  vadThrows : Bool
  vadSegments : List (Int × Int)
  vadNewCache : Nat
  offThrows : Bool
  offText : String
  onThrows : Bool
  onText : String
  onNewCache : Nat
  puncThrows : Bool
  puncText : String
  puncNewCache : Nat
  deriving Repr, DecidableEq

/-- A successfully parsed inbound JSON control message: presence and value
of each recognised key.  `typePing` models `messagejson.get("type") == "ping"`. -/
structure MsgJson where
  typePing : Bool
  isSpeaking : Option Bool
  chunkInterval : Option Int
  wavName : Option String
  chunkSize : Option (List Int)
  hotwords : Option String
  mode : Option String
  deriving Repr, DecidableEq

/-- An inbound text websocket frame: either unparseable JSON
(`json.JSONDecodeError`) or a parsed control message. -/
inductive TextMsg where
  | invalid
  | json (j : MsgJson)
  deriving Repr, DecidableEq

/-- One inbound websocket message. -/
inductive InMsg where
  | text (t : TextMsg)
  | binary (f : Frame)
  deriving Repr, DecidableEq

/-- Result of running one of the `process_asr_*` helpers: the session
afterwards, the messages it sent, and how many times it actually called the
engine's `generate` (0 or 1; the empty-input guard skips the call). -/
structure PassOut where
  sess : Session
  out : List OutMsg
  calls : Nat
  deriving Repr, DecidableEq

/-- Result of processing one inbound message: session afterwards, outbound
messages in order, and the number of offline-ASR / online-ASR engine calls
made while processing it. -/
structure StepOut where
  sess : Session
  out : List OutMsg
  offlineCalls : Nat
  onlineCalls : Nat
  deriving Repr, DecidableEq

/-- Accumulated result of processing a whole inbound message sequence. -/
structure RunOut where
  sess : Session
  out : List OutMsg
  offlineCalls : Nat
  onlineCalls : Nat
  deriving Repr, DecidableEq

/-- `l[-n:]` in Python: the last `n` elements (all of them if fewer). -/
def pyLastN (l : List α) (n : Nat) : List α := l.drop (l.length - n)

/-- Whether `needle` starts `hay` (character lists). -/
def charsStartWith : List Char → List Char → Bool
  | [], _ => true
  | _ :: _, [] => false
  | a :: as, b :: bs => a == b && charsStartWith as bs

/-- Whether `needle` occurs contiguously inside `hay` (character lists). -/
def charsContain (needle : List Char) : List Char → Bool
  | [] => charsStartWith needle []
  | hay@(_ :: rest) => charsStartWith needle hay || charsContain needle rest

/-- Python's substring containment `needle in hay` on strings. -/
def pyInStr (needle hay : String) : Bool := charsContain needle.toList hay.toList

/-- The result message built by `process_asr_offline` (lines 140-148): the
`mode` field is rewritten to `"2pass-offline"` when the session mode contains
`"2pass"`, and `is_final` is `True` in `"offline"` mode and `is_speaking`
otherwise. -/
def offlineResultMsg (s : Session) (text : String) : OutMsg :=
  OutMsg.result (if pyInStr "2pass" s.mode then "2pass-offline" else s.mode)
    text s.wavName (if s.mode = "offline" then true else s.isSpeaking)

/-- `process_asr_offline` (lines 126-149): empty input returns immediately
without touching the engine; otherwise the offline engine runs (its raised
exception propagates to the caller's `try`, here reported as a result with no
output since the caller catches and logs it); non-empty text is passed
through the punctuation engine when one is loaded; a message is sent only
when the final text is non-empty.  The punctuation cache is the only session
state this function updates. -/
def processAsrOffline (hasPunc : Bool) (env : Env) (s : Session) (audioIn : Frame) : PassOut :=
  if audioIn.length = 0 then ⟨s, [], 0⟩
  else if env.offThrows then ⟨s, [], 1⟩
  else if hasPunc ∧ env.offText.length > 0 then
    if env.puncThrows then ⟨s, [], 1⟩
    else
      let s1 : Session := { s with puncCache := env.puncNewCache }
      if env.puncText.length > 0 then ⟨s1, [offlineResultMsg s1 env.puncText], 1⟩
      else ⟨s1, [], 1⟩
  else if env.offText.length > 0 then ⟨s, [offlineResultMsg s env.offText], 1⟩
  else ⟨s, [], 1⟩

/-- `process_asr_online` (lines 152-169): empty input returns immediately;
otherwise the streaming engine runs, updating the online cache in place, and
a message with `is_final = is_speaking` is sent when the text is non-empty. -/
def processAsrOnline (env : Env) (s : Session) (audioIn : Frame) : PassOut :=
  if audioIn.length = 0 then ⟨s, [], 0⟩
  else if env.onThrows then ⟨s, [], 1⟩
  else
    let s1 : Session := { s with asrOnlineCache := env.onNewCache }
    if env.onText.length > 0 then
      ⟨s1, [OutMsg.result (if pyInStr "2pass" s1.mode then "2pass-online" else s1.mode)
              env.onText s1.wavName s1.isSpeaking], 1⟩
    else ⟨s1, [], 1⟩

/-- The start/end offsets `process_vad` extracts from the VAD segments
(lines 114-123): only a single-segment result yields offsets, each reported
only when different from `-1`. -/
def vadSegValues (segs : List (Int × Int)) : Int × Int :=
  match segs with
  | [seg] => ((if seg.1 ≠ -1 then seg.1 else -1), (if seg.2 ≠ -1 then seg.2 else -1))
  | _ => (-1, -1)

/-- The block appending an arriving binary frame (lines 262-270): the frame
joins all three buffers, `vad_pre_idx` grows by `len(message) // 32`, and
`status_dict_asr_online["is_final"]` is overwritten with whether the
*previous* frame's VAD call reported a speech end. -/
def appendFrame (s : Session) (f : Frame) : Session :=
  { s with frames := s.frames ++ [f],
           framesAsr := s.framesAsr ++ [f],
           vadPreIdx := s.vadPreIdx + f.length / 32,
           framesAsrOnline := s.framesAsrOnline ++ [f],
           asrOnlineFinal := decide (s.speechEndI ≠ -1) }

/-- The online-pass trigger condition (line 273):
`len(frames_asr_online) % chunk_interval == 0 or is_final`.  Python evaluates
the modulo first, so `chunk_interval = 0` raises `ZeroDivisionError`
regardless of `is_final`. -/
def onlineTrigger (l : Nat) (ci : Int) (fin : Bool) : Except PyErr Bool :=
  if ci = 0 then .error .zeroDivisionError
  else .ok (decide ((l : Int) % ci = 0) || fin)

/-- The online-pass section of binary-frame handling (lines 273-281): when
the trigger fires, the online pass runs only in modes `"2pass"`/`"online"`
(invoking it resets the ghost event flags), and the online queue is cleared
regardless of mode. -/
def onlinePhase (env : Env) (trig : Bool) (s : Session) : PassOut :=
  if trig then
    let p : PassOut :=
      if s.mode = "2pass" ∨ s.mode = "online" then
        let r := processAsrOnline env s s.framesAsrOnline.flatten
        ⟨{ r.sess with stopDeclaredSinceOnline := false, vadEndSinceOnline := false },
          r.out, r.calls⟩
      else ⟨s, [], 0⟩
    ⟨{ p.sess with framesAsrOnline := [] }, p.out, p.calls⟩
  else ⟨s, [], 0⟩

/-- The VAD call on the single incoming frame (lines 284-287): on success
the VAD cache is updated and the local offsets `speech_start_i` /
`speech_end_i` are (re)assigned; when the engine raises, the caught exception
leaves both locals at their previous values.  The ghost flag records a
reported speech end. -/
def vadUpdate (env : Env) (s : Session) : Session :=
  if env.vadThrows then s
  else
    let se := vadSegValues env.vadSegments
    { s with vadCache := env.vadNewCache,
             speechStartI := some se.1,
             speechEndI := se.2,
             vadEndSinceOnline := if se.2 ≠ -1 then true else s.vadEndSinceOnline }

/-- The state reset after a VAD-triggered offline flush (lines 307-311):
clear both ASR queues, reset `speech_start`, empty the online cache, and keep
only the last 20 frames of the rolling history.  The VAD cache and
`vad_pre_idx` are *not* touched here. -/
def vadFlushReset (s : Session) : Session :=
  { s with framesAsr := [], speechStart := false, framesAsrOnline := [],
           asrOnlineCache := 0, frames := pyLastN s.frames 20 }

/-- The state reset after a client-stop offline flush (lines 234-240): clear
both ASR queues, reset `speech_start`, empty the online cache, reset
`vad_pre_idx`, clear the whole rolling history, and empty the VAD cache. -/
def clientStopReset (s : Session) : Session :=
  { s with framesAsr := [], speechStart := false, framesAsrOnline := [],
           asrOnlineCache := 0, vadPreIdx := 0, frames := [], vadCache := 0 }

/-- The guarded offline-flush block, duplicated verbatim in the source at
lines 226-232 (client stop) and 299-305 (VAD speech end): run the offline
pass over the joined offline queue only in modes `"2pass"`/`"offline"`; a
raised engine exception is caught and logged there. -/
def offlineFlushPass (hasPunc : Bool) (env : Env) (s : Session) : PassOut :=
  if s.mode = "2pass" ∨ s.mode = "offline" then
    processAsrOffline hasPunc env s s.framesAsr.flatten
  else ⟨s, [], 0⟩

/-- The VAD-and-flush tail of binary-frame handling (lines 284-311): run VAD
on the frame, update `speech_start` from the offsets (reading the possibly
still unassigned `speech_start_i` raises `NameError`), and on a reported
speech end run the offline flush block followed by the reset — the reset runs
whatever the mode and whether or not the engine call failed. -/
def vadFlushPhase (hasPunc : Bool) (env : Env) (s0 : Session) : Except PyErr PassOut :=
  let s := vadUpdate env s0
  match s.speechStartI with
  | none => .error .nameError
  | some sst =>
    let s1 := if sst ≠ -1 then { s with speechStart := true } else s
    let s2 := if s1.speechEndI ≠ -1 then { s1 with speechStart := false } else s1
    if s2.speechEndI ≠ -1 then
      let p := offlineFlushPass hasPunc env s2
      .ok ⟨vadFlushReset p.sess, p.out, p.calls⟩
    else .ok ⟨s2, [], 0⟩

/-- Processing of one binary audio frame (lines 260-311): append to buffers,
evaluate the online trigger (a `ZeroDivisionError` escapes and terminates the
session), run the online phase, then the VAD-and-flush phase. -/
def stepBinary (hasPunc : Bool) (env : Env) (s0 : Session) (f : Frame) :
    Except PyErr StepOut :=
  let s := appendFrame s0 f
  match onlineTrigger s.framesAsrOnline.length s.chunkInterval s.asrOnlineFinal with
  | .error e => .error e
  | .ok trig =>
    let p := onlinePhase env trig s
    match vadFlushPhase hasPunc env p.sess with
    | .error e => .error e
    | .ok q => .ok ⟨q.sess, p.out ++ q.out, q.calls, p.calls⟩

/-- The configuration-key section of JSON handling (lines 242-254), applied
in source order: `chunk_interval`, `wav_name`, `chunk_size`, `hotwords`,
`mode`.  Each key is stored unvalidated when present. -/
def applyConfig (j : MsgJson) (s : Session) : Session :=
  let s := match j.chunkInterval with
    | some ci => { s with chunkInterval := ci }
    | none => s
  let s := match j.wavName with
    | some w => { s with wavName := w }
    | none => s
  let s := match j.chunkSize with
    | some cs => { s with asrOnlineChunkSize := cs }
    | none => s
  let s := match j.hotwords with
    | some h => { s with hotword := some h }
    | none => s
  let s := match j.mode with
    | some m => { s with mode := m }
    | none => s
  s

/-- The assignments at lines 219-220 (plus the ghost event flag): store the
client-declared `is_speaking` and force the online `is_final` to its
negation. -/
def speakingAssign (s : Session) (b : Bool) : Session :=
  { s with isSpeaking := b, asrOnlineFinal := !b,
           stopDeclaredSinceOnline := if b then s.stopDeclaredSinceOnline else true }

/-- The `is_speaking` section of JSON handling (lines 218-240): store the
flag, force the online `is_final` to its negation, and when the client
stopped speaking while the offline queue is non-empty, run the offline flush
block and then reset — the reset runs whatever the mode and whether or not
the engine call failed. -/
def isSpeakingPhase (hasPunc : Bool) (env : Env) (s : Session) (j : MsgJson) : PassOut :=
  match j.isSpeaking with
  | none => ⟨s, [], 0⟩
  | some b =>
    let s1 := speakingAssign s b
    if b = false ∧ s1.framesAsr ≠ [] then
      let p := offlineFlushPass hasPunc env s1
      ⟨clientStopReset p.sess, p.out, p.calls⟩
    else ⟨s1, [], 0⟩

/-- Processing of one text websocket frame (lines 207-257): drop unparseable
JSON, answer a ping with a pong and nothing else, otherwise handle
`is_speaking` and then the configuration keys. -/
def stepText (hasPunc : Bool) (env : Env) (s : Session) (t : TextMsg) : StepOut :=
  match t with
  | .invalid => ⟨s, [], 0, 0⟩
  | .json j =>
    if j.typePing then ⟨s, [OutMsg.pong], 0, 0⟩
    else
      let p := isSpeakingPhase hasPunc env s j
      ⟨applyConfig j p.sess, p.out, p.calls, 0⟩

/-- Processing of one inbound websocket message by the receive loop. -/
def serveStep (hasPunc : Bool) (env : Env) (s : Session) (m : InMsg) :
    Except PyErr StepOut :=
  match m with
  | .text t => .ok (stepText hasPunc env s t)
  | .binary f => stepBinary hasPunc env s f

/-- Processing of a whole inbound message sequence; an escaping exception
terminates the session (no further messages are processed). -/
def serveRun (hasPunc : Bool) : List (Env × InMsg) → Session → Except PyErr RunOut
  | [], s => .ok ⟨s, [], 0, 0⟩
  | (e, m) :: rest, s =>
    match serveStep hasPunc e s m with
    | .error err => .error err
    | .ok st =>
      match serveRun hasPunc rest st.sess with
      | .error err => .error err
      | .ok r =>
        .ok ⟨r.sess, st.out ++ r.out,
             st.offlineCalls + r.offlineCalls, st.onlineCalls + r.onlineCalls⟩

/-! ### Basic lemmas about the passes and resets -/

theorem pyLastN_length_le (l : List α) (n : Nat) : (pyLastN l n).length ≤ n := by
  simp only [pyLastN, List.length_drop]
  omega

theorem processAsrOffline_frames (hp : Bool) (env : Env) (s : Session) (a : Frame) :
    (processAsrOffline hp env s a).sess.frames = s.frames := by
  unfold processAsrOffline
  split_ifs <;> rfl

theorem processAsrOffline_framesAsr (hp : Bool) (env : Env) (s : Session) (a : Frame) :
    (processAsrOffline hp env s a).sess.framesAsr = s.framesAsr := by
  unfold processAsrOffline
  split_ifs <;> rfl

theorem processAsrOffline_vadCache (hp : Bool) (env : Env) (s : Session) (a : Frame) :
    (processAsrOffline hp env s a).sess.vadCache = s.vadCache := by
  unfold processAsrOffline
  split_ifs <;> rfl

theorem processAsrOffline_asrOnlineFinal (hp : Bool) (env : Env) (s : Session) (a : Frame) :
    (processAsrOffline hp env s a).sess.asrOnlineFinal = s.asrOnlineFinal := by
  unfold processAsrOffline
  split_ifs <;> rfl

theorem processAsrOffline_calls (hp : Bool) (env : Env) (s : Session) (a : Frame) :
    (processAsrOffline hp env s a).calls = if a.length = 0 then 0 else 1 := by
  unfold processAsrOffline
  split_ifs <;> rfl

theorem processAsrOffline_empty (hp : Bool) (env : Env) (s : Session) :
    processAsrOffline hp env s [] = ⟨s, [], 0⟩ := rfl

theorem processAsrOffline_out_throw (hp : Bool) (env : Env) (s : Session) (a : Frame)
    (h : env.offThrows = true) : (processAsrOffline hp env s a).out = [] := by
  unfold processAsrOffline
  split_ifs <;> simp_all

theorem processAsrOnline_framesAsr (env : Env) (s : Session) (a : Frame) :
    (processAsrOnline env s a).sess.framesAsr = s.framesAsr := by
  unfold processAsrOnline
  split_ifs <;> rfl

theorem processAsrOnline_frames (env : Env) (s : Session) (a : Frame) :
    (processAsrOnline env s a).sess.frames = s.frames := by
  unfold processAsrOnline
  split_ifs <;> rfl

theorem processAsrOnline_mode (env : Env) (s : Session) (a : Frame) :
    (processAsrOnline env s a).sess.mode = s.mode := by
  unfold processAsrOnline
  split_ifs <;> rfl

theorem processAsrOnline_asrOnlineFinal (env : Env) (s : Session) (a : Frame) :
    (processAsrOnline env s a).sess.asrOnlineFinal = s.asrOnlineFinal := by
  unfold processAsrOnline
  split_ifs <;> rfl

theorem processAsrOnline_speechEndI (env : Env) (s : Session) (a : Frame) :
    (processAsrOnline env s a).sess.speechEndI = s.speechEndI := by
  unfold processAsrOnline
  split_ifs <;> rfl

theorem processAsrOnline_speechStartI (env : Env) (s : Session) (a : Frame) :
    (processAsrOnline env s a).sess.speechStartI = s.speechStartI := by
  unfold processAsrOnline
  split_ifs <;> rfl

theorem processAsrOnline_calls (env : Env) (s : Session) (a : Frame) :
    (processAsrOnline env s a).calls = if a.length = 0 then 0 else 1 := by
  unfold processAsrOnline
  split_ifs <;> rfl

theorem offlineFlushPass_framesAsr (hp : Bool) (env : Env) (s : Session) :
    (offlineFlushPass hp env s).sess.framesAsr = s.framesAsr := by
  unfold offlineFlushPass
  split_ifs <;> simp [processAsrOffline_framesAsr]

theorem offlineFlushPass_frames (hp : Bool) (env : Env) (s : Session) :
    (offlineFlushPass hp env s).sess.frames = s.frames := by
  unfold offlineFlushPass
  split_ifs <;> simp [processAsrOffline_frames]

theorem offlineFlushPass_vadCache (hp : Bool) (env : Env) (s : Session) :
    (offlineFlushPass hp env s).sess.vadCache = s.vadCache := by
  unfold offlineFlushPass
  split_ifs <;> simp [processAsrOffline_vadCache]

theorem offlineFlushPass_asrOnlineFinal (hp : Bool) (env : Env) (s : Session) :
    (offlineFlushPass hp env s).sess.asrOnlineFinal = s.asrOnlineFinal := by
  unfold offlineFlushPass
  split_ifs <;> simp [processAsrOffline_asrOnlineFinal]

theorem offlineFlushPass_calls (hp : Bool) (env : Env) (s : Session)
    (hmode : s.mode = "2pass" ∨ s.mode = "offline") :
    (offlineFlushPass hp env s).calls = if s.framesAsr.flatten.length = 0 then 0 else 1 := by
  unfold offlineFlushPass
  rw [if_pos hmode, processAsrOffline_calls]

theorem offlineFlushPass_out_throw (hp : Bool) (env : Env) (s : Session)
    (h : env.offThrows = true) : (offlineFlushPass hp env s).out = [] := by
  unfold offlineFlushPass
  split_ifs with hm
  · exact processAsrOffline_out_throw hp env s _ h
  · rfl

theorem applyConfig_buffers (j : MsgJson) (s : Session) :
    (applyConfig j s).framesAsr = s.framesAsr ∧
    (applyConfig j s).framesAsrOnline = s.framesAsrOnline ∧
    (applyConfig j s).frames = s.frames ∧
    (applyConfig j s).vadCache = s.vadCache ∧
    (applyConfig j s).vadPreIdx = s.vadPreIdx ∧
    (applyConfig j s).speechStart = s.speechStart ∧
    (applyConfig j s).asrOnlineCache = s.asrOnlineCache ∧
    (applyConfig j s).asrOnlineFinal = s.asrOnlineFinal := by
  unfold applyConfig
  cases j.chunkInterval <;> cases j.wavName <;> cases j.chunkSize <;>
    cases j.hotwords <;> cases j.mode <;> simp

theorem applyConfig_chunkInterval (j : MsgJson) (s : Session) (c : Int)
    (h : j.chunkInterval = some c) : (applyConfig j s).chunkInterval = c := by
  unfold applyConfig
  rw [h]
  cases j.wavName <;> cases j.chunkSize <;> cases j.hotwords <;> cases j.mode <;> simp

theorem vadUpdate_framesAsr (env : Env) (s : Session) :
    (vadUpdate env s).framesAsr = s.framesAsr := by
  unfold vadUpdate
  split_ifs <;> rfl

theorem vadUpdate_frames (env : Env) (s : Session) :
    (vadUpdate env s).frames = s.frames := by
  unfold vadUpdate
  split_ifs <;> rfl

theorem vadUpdate_mode (env : Env) (s : Session) :
    (vadUpdate env s).mode = s.mode := by
  unfold vadUpdate
  split_ifs <;> rfl

theorem vadUpdate_asrOnlineFinal (env : Env) (s : Session) :
    (vadUpdate env s).asrOnlineFinal = s.asrOnlineFinal := by
  unfold vadUpdate
  split_ifs <;> rfl

theorem vadUpdate_noThrow_vadCache (env : Env) (s : Session)
    (hv : env.vadThrows = false) : (vadUpdate env s).vadCache = env.vadNewCache := by
  unfold vadUpdate
  simp [hv]

theorem vadUpdate_noThrow_speechStartI (env : Env) (s : Session)
    (hv : env.vadThrows = false) :
    (vadUpdate env s).speechStartI = some (vadSegValues env.vadSegments).1 := by
  unfold vadUpdate
  simp [hv]

theorem vadUpdate_noThrow_speechEndI (env : Env) (s : Session)
    (hv : env.vadThrows = false) :
    (vadUpdate env s).speechEndI = (vadSegValues env.vadSegments).2 := by
  unfold vadUpdate
  simp [hv]

theorem onlinePhase_frames (env : Env) (t : Bool) (s : Session) :
    (onlinePhase env t s).sess.frames = s.frames := by
  unfold onlinePhase
  split_ifs <;> simp [processAsrOnline_frames]

theorem onlinePhase_framesAsr (env : Env) (t : Bool) (s : Session) :
    (onlinePhase env t s).sess.framesAsr = s.framesAsr := by
  unfold onlinePhase
  split_ifs <;> simp [processAsrOnline_framesAsr]

theorem onlinePhase_mode (env : Env) (t : Bool) (s : Session) :
    (onlinePhase env t s).sess.mode = s.mode := by
  unfold onlinePhase
  split_ifs <;> simp [processAsrOnline_mode]

theorem onlinePhase_asrOnlineFinal (env : Env) (t : Bool) (s : Session) :
    (onlinePhase env t s).sess.asrOnlineFinal = s.asrOnlineFinal := by
  unfold onlinePhase
  split_ifs <;> simp [processAsrOnline_asrOnlineFinal]

theorem onlinePhase_speechEndI (env : Env) (t : Bool) (s : Session) :
    (onlinePhase env t s).sess.speechEndI = s.speechEndI := by
  unfold onlinePhase
  split_ifs <;> simp [processAsrOnline_speechEndI]

theorem onlinePhase_calls (env : Env) (t : Bool) (s : Session)
    (hmode : s.mode = "2pass" ∨ s.mode = "online") :
    (onlinePhase env t s).calls =
      if t then (if s.framesAsrOnline.flatten.length = 0 then 0 else 1) else 0 := by
  rcases hmode with h | h <;> cases t <;>
    simp [onlinePhase, h, processAsrOnline_calls]

theorem onlinePhase_queue (env : Env) (t : Bool) (s : Session) :
    (onlinePhase env t s).sess.framesAsrOnline =
      if t then [] else s.framesAsrOnline := by
  unfold onlinePhase
  split_ifs <;> rfl

theorem vadFlushPhase_flush_eq (hp : Bool) (env : Env) (s : Session)
    (hv : env.vadThrows = false) (he : (vadSegValues env.vadSegments).2 ≠ -1) :
    vadFlushPhase hp env s =
      .ok ⟨vadFlushReset (offlineFlushPass hp env { vadUpdate env s with speechStart := false }).sess,
           (offlineFlushPass hp env { vadUpdate env s with speechStart := false }).out,
           (offlineFlushPass hp env { vadUpdate env s with speechStart := false }).calls⟩ := by
  unfold vadFlushPhase
  dsimp only
  rw [vadUpdate_noThrow_speechStartI env s hv]
  dsimp only
  have h2 := vadUpdate_noThrow_speechEndI env s hv
  by_cases hc1 : (vadSegValues env.vadSegments).1 ≠ -1
  · rw [if_pos hc1]
    dsimp only
    rw [h2, if_pos he]
    dsimp only
    rw [if_pos he]
  · rw [if_neg hc1]
    try dsimp only
    rw [h2, if_pos he]
    try dsimp only
    try rw [if_pos he]
    rw [vadUpdate_noThrow_speechStartI env s hv]

theorem vadFlushPhase_asrOnlineFinal (hp : Bool) (env : Env) (s : Session)
    (q : PassOut) (h : vadFlushPhase hp env s = .ok q) :
    q.sess.asrOnlineFinal = s.asrOnlineFinal := by
  unfold vadFlushPhase at h
  dsimp only at h
  cases hss : (vadUpdate env s).speechStartI with
  | none =>
    rw [hss] at h
    exact absurd h (by simp)
  | some sst =>
    rw [hss] at h
    dsimp only at h
    split_ifs at h with hc1 hc2 hc3 <;>
      (injection h with h'
       rw [← h']
       simp [vadFlushReset, offlineFlushPass_asrOnlineFinal, vadUpdate_asrOnlineFinal])

/-- The value the line-273 trigger takes after a frame is appended, expressed
over the state before the frame: the grown online-queue length is a multiple
of the chunk interval, or the previous frame's VAD reported a speech end. -/
def binTrig (s : Session) : Bool :=
  decide (((s.framesAsrOnline.length + 1 : Nat) : Int) % s.chunkInterval = 0) ||
    decide (s.speechEndI ≠ -1)

/-- The session state over which the VAD-end offline flush of line 300 runs:
the post-VAD state with `speech_start` lowered. -/
def flushSource (env : Env) (s : Session) : Session :=
  { vadUpdate env s with speechStart := false }

theorem stepBinary_zeroDiv (hp : Bool) (env : Env) (s : Session) (f : Frame)
    (h : s.chunkInterval = 0) :
    stepBinary hp env s f = .error .zeroDivisionError := by
  unfold stepBinary onlineTrigger appendFrame
  simp [h]

theorem stepBinary_eq (hp : Bool) (env : Env) (s : Session) (f : Frame)
    (hci : s.chunkInterval ≠ 0) :
    stepBinary hp env s f =
      match vadFlushPhase hp env (onlinePhase env (binTrig s) (appendFrame s f)).sess with
      | .error e => .error e
      | .ok q => .ok ⟨q.sess,
          (onlinePhase env (binTrig s) (appendFrame s f)).out ++ q.out, q.calls,
          (onlinePhase env (binTrig s) (appendFrame s f)).calls⟩ := by
  have ht : onlineTrigger (appendFrame s f).framesAsrOnline.length
      (appendFrame s f).chunkInterval (appendFrame s f).asrOnlineFinal = .ok (binTrig s) := by
    unfold onlineTrigger binTrig appendFrame
    dsimp only
    rw [if_neg hci]
    simp [List.length_append]
  unfold stepBinary
  dsimp only
  rw [ht]

theorem stepBinary_flush_eq (hp : Bool) (env : Env) (s : Session) (f : Frame)
    (hci : s.chunkInterval ≠ 0) (hv : env.vadThrows = false)
    (he : (vadSegValues env.vadSegments).2 ≠ -1) :
    stepBinary hp env s f =
      .ok ⟨vadFlushReset (offlineFlushPass hp env
              (flushSource env (onlinePhase env (binTrig s) (appendFrame s f)).sess)).sess,
           (onlinePhase env (binTrig s) (appendFrame s f)).out ++
             (offlineFlushPass hp env
               (flushSource env (onlinePhase env (binTrig s) (appendFrame s f)).sess)).out,
           (offlineFlushPass hp env
             (flushSource env (onlinePhase env (binTrig s) (appendFrame s f)).sess)).calls,
           (onlinePhase env (binTrig s) (appendFrame s f)).calls⟩ := by
  rw [stepBinary_eq hp env s f hci, vadFlushPhase_flush_eq hp env _ hv he]
  dsimp only [flushSource]

theorem stepText_stop_eq (hp : Bool) (env : Env) (s : Session) (j : MsgJson)
    (hping : j.typePing = false) (hstop : j.isSpeaking = some false)
    (hne : s.framesAsr ≠ []) :
    stepText hp env s (.json j) =
      ⟨applyConfig j (clientStopReset (offlineFlushPass hp env (speakingAssign s false)).sess),
       (offlineFlushPass hp env (speakingAssign s false)).out,
       (offlineFlushPass hp env (speakingAssign s false)).calls, 0⟩ := by
  have hne' : (speakingAssign s false).framesAsr ≠ [] := by
    simpa [speakingAssign] using hne
  unfold stepText
  simp only [hping, Bool.false_eq_true, if_false]
  unfold isSpeakingPhase
  rw [hstop]
  dsimp only
  rw [if_pos ⟨rfl, hne'⟩]

theorem stepText_stop_empty_eq (hp : Bool) (env : Env) (s : Session) (j : MsgJson)
    (hping : j.typePing = false) (hstop : j.isSpeaking = some false)
    (hempty : s.framesAsr = []) :
    stepText hp env s (.json j) = ⟨applyConfig j (speakingAssign s false), [], 0, 0⟩ := by
  have hok : ¬(false = false ∧ (speakingAssign s false).framesAsr ≠ []) := by
    rintro ⟨-, hn⟩
    exact hn (by simpa [speakingAssign] using hempty)
  unfold stepText
  simp only [hping, Bool.false_eq_true, if_false]
  unfold isSpeakingPhase
  rw [hstop]
  dsimp only
  rw [if_neg hok]

theorem stepText_isSpeaking_final (hp : Bool) (env : Env) (s : Session) (j : MsgJson)
    (b : Bool) (hping : j.typePing = false) (hsp : j.isSpeaking = some b) :
    (stepText hp env s (.json j)).sess.asrOnlineFinal = !b := by
  unfold stepText
  simp only [hping, Bool.false_eq_true, if_false]
  rw [(applyConfig_buffers j _).2.2.2.2.2.2.2]
  unfold isSpeakingPhase
  rw [hsp]
  dsimp only
  split_ifs with hg
  · simp [clientStopReset, offlineFlushPass_asrOnlineFinal, speakingAssign]
  · simp [speakingAssign]

theorem vadUpdate_framesAsrOnline (env : Env) (s : Session) :
    (vadUpdate env s).framesAsrOnline = s.framesAsrOnline := by
  unfold vadUpdate
  split_ifs <;> rfl

theorem flushSource_frames (env : Env) (s : Session) :
    (flushSource env s).frames = s.frames := by
  simp [flushSource, vadUpdate_frames]

theorem flushSource_framesAsr (env : Env) (s : Session) :
    (flushSource env s).framesAsr = s.framesAsr := by
  simp [flushSource, vadUpdate_framesAsr]

theorem flushSource_mode (env : Env) (s : Session) :
    (flushSource env s).mode = s.mode := by
  simp [flushSource, vadUpdate_mode]

theorem flushSource_vadCache (env : Env) (s : Session)
    (hv : env.vadThrows = false) : (flushSource env s).vadCache = env.vadNewCache := by
  simp [flushSource, vadUpdate_noThrow_vadCache env s hv]

theorem vadFlushPhase_noflush_eq (hp : Bool) (env : Env) (s : Session)
    (hv : env.vadThrows = false) (he : (vadSegValues env.vadSegments).2 = -1) :
    vadFlushPhase hp env s =
      .ok ⟨(if (vadSegValues env.vadSegments).1 ≠ -1
             then { vadUpdate env s with speechStart := true }
             else vadUpdate env s), [], 0⟩ := by
  unfold vadFlushPhase
  dsimp only
  rw [vadUpdate_noThrow_speechStartI env s hv]
  dsimp only
  have h2 := vadUpdate_noThrow_speechEndI env s hv
  by_cases hc1 : (vadSegValues env.vadSegments).1 ≠ -1
  · rw [if_pos hc1]
    try dsimp only
    simp [h2, he]
  · rw [if_neg hc1]
    try dsimp only
    simp [h2, he]

/-! ### Concrete fixtures for witnesses and counterexamples -/

/-- A benign engine oracle: VAD succeeds reporting no boundary, every ASR
engine succeeds with non-empty text. -/
def envBase : Env where
  vadThrows := false
  vadSegments := []
  vadNewCache := 1
  offThrows := false
  offText := "a"
  onThrows := false
  onText := "b"
  onNewCache := 2
  puncThrows := false
  puncText := "c"
  puncNewCache := 3

/-- A parsed control message carrying no recognised keys. -/
def jsonBase : MsgJson where
  typePing := false
  isSpeaking := none
  chunkInterval := none
  wavName := none
  chunkSize := none
  hotwords := none
  mode := none

/-! ### Claims -/

/-- C8: a text message that is not parseable JSON is dropped without
emitting any message to the client, without any engine call, and without
modifying session state; the session remains usable — processing any
subsequent messages is exactly as if the bad message had never arrived. -/
theorem c8_invalid_json_dropped (hp : Bool) (env : Env) (s : Session)
    (rest : List (Env × InMsg)) :
    serveStep hp env s (.text .invalid) = .ok ⟨s, [], 0, 0⟩ ∧
    serveRun hp ((env, .text .invalid) :: rest) s = serveRun hp rest s := by
  refine ⟨rfl, ?_⟩
  conv_lhs => unfold serveRun
  dsimp only [serveStep, stepText]
  cases h : serveRun hp rest s <;> simp

/-- C10: a `chunk_interval` of 0 from a control message is stored
unvalidated; the next binary frame then evaluates `len % 0` in the
online-trigger check (Python evaluates the modulo before the `or`), raising
a `ZeroDivisionError` that only the connection handler's generic handler
catches, so the session terminates and the rest of the inbound sequence is
never processed; for every nonzero chunk interval the trigger check is
total. -/
theorem c10_zero_chunk_interval (hp : Bool) (env : Env) (s : Session) :
    (∀ j : MsgJson, j.typePing = false → j.chunkInterval = some 0 →
      (stepText hp env s (.json j)).sess.chunkInterval = 0) ∧
    (∀ (f : Frame) (rest : List (Env × InMsg)), s.chunkInterval = 0 →
      serveRun hp ((env, .binary f) :: rest) s = .error .zeroDivisionError) ∧
    (∀ (l : Nat) (ci : Int) (fin : Bool), ci ≠ 0 →
      onlineTrigger l ci fin = .ok (decide ((l : Int) % ci = 0) || fin)) := by
  refine ⟨?_, ?_, ?_⟩
  · intro j hping hci
    unfold stepText
    simp only [hping, Bool.false_eq_true, if_false]
    exact applyConfig_chunkInterval j _ 0 hci
  · intro f rest h
    conv_lhs => unfold serveRun
    rw [show serveStep hp env s (.binary f) = .error .zeroDivisionError from
          stepBinary_zeroDiv hp env s f h]
  · intro l ci fin h
    unfold onlineTrigger
    rw [if_neg h]

/-- Witness for C10: `chunk_interval := 0` is stored; a binary frame on a
session with chunk interval 0 kills the whole remaining run; the trigger
check is total at a nonzero interval. -/
theorem c10_zero_chunk_interval_witness :
    (stepText false envBase initSession
        (.json { jsonBase with chunkInterval := some 0 })).sess.chunkInterval = 0 ∧
    serveRun false [(envBase, .binary [1])] { initSession with chunkInterval := 0 } =
      .error .zeroDivisionError ∧
    onlineTrigger 3 10 false = .ok (decide ((3 : Int) % 10 = 0) || false) :=
  ⟨(c10_zero_chunk_interval false envBase initSession).1 _ rfl rfl,
   (c10_zero_chunk_interval false envBase
      { initSession with chunkInterval := 0 }).2.1 [1] [] rfl,
   (c10_zero_chunk_interval false envBase initSession).2.2 3 10 false (by decide)⟩

/-- C3: every offline-pass result message carries `is_final = true` when the
session mode is `"offline"`, and `is_final = isSpeaking` when the mode is
`"2pass"`; every online-pass result message carries `is_final = isSpeaking`. -/
theorem c3_result_final_flags (hp : Bool) (env : Env) (s : Session) (a : Frame)
    (m : OutMsg) :
    (s.mode = "offline" → m ∈ (processAsrOffline hp env s a).out →
      m.finalFlag = some true) ∧
    (s.mode = "2pass" → m ∈ (processAsrOffline hp env s a).out →
      m.finalFlag = some s.isSpeaking) ∧
    (m ∈ (processAsrOnline env s a).out → m.finalFlag = some s.isSpeaking) := by
  have hne : ("2pass" : String) ≠ "offline" := by decide
  refine ⟨?_, ?_, ?_⟩
  · intro hmode hm
    unfold processAsrOffline at hm
    split_ifs at hm <;> simp at hm <;> subst hm <;>
      simp [offlineResultMsg, OutMsg.finalFlag, hmode]
  · intro hmode hm
    unfold processAsrOffline at hm
    split_ifs at hm <;> simp at hm <;> subst hm <;>
      simp [offlineResultMsg, OutMsg.finalFlag, hmode, hne]
  · intro hm
    unfold processAsrOnline at hm
    split_ifs at hm <;> simp at hm <;> subst hm <;>
      simp [OutMsg.finalFlag]

/-- Witness for C3: in mode `"offline"` the emitted offline result is final;
in mode `"2pass"` an online result mirrors `isSpeaking = true`. -/
theorem c3_result_final_flags_witness :
    (OutMsg.result "offline" "a" "microphone" true).finalFlag = some true ∧
    (OutMsg.result "2pass-online" "b" "microphone" true).finalFlag =
      some initSession.isSpeaking :=
  ⟨(c3_result_final_flags false envBase { initSession with mode := "offline" } [0]
      (OutMsg.result "offline" "a" "microphone" true)).1 rfl (by decide),
   (c3_result_final_flags false envBase initSession [0]
      (OutMsg.result "2pass-online" "b" "microphone" true)).2.2 (by decide)⟩

/-- C7: the empty-buffer guards make a second speech-end trigger without
intervening audio a no-op: a client-stop message with an empty offline queue
performs no offline engine call and emits nothing, and the offline-pass
entry point returns immediately on empty audio without calling the engine
or changing state. -/
theorem c7_empty_buffer_no_offline (hp : Bool) (env : Env) (s : Session) :
    (∀ j : MsgJson, j.typePing = false → j.isSpeaking = some false →
      s.framesAsr = [] →
      (stepText hp env s (.json j)).offlineCalls = 0 ∧
      (stepText hp env s (.json j)).out = []) ∧
    processAsrOffline hp env s [] = ⟨s, [], 0⟩ := by
  refine ⟨?_, rfl⟩
  intro j hping hstop hempty
  rw [stepText_stop_empty_eq hp env s j hping hstop hempty]
  exact ⟨rfl, rfl⟩

/-- Witness for C7: concrete client-stop on a fresh session (empty queue)
makes no offline call, and the offline pass on empty audio is the identity. -/
theorem c7_empty_buffer_no_offline_witness :
    (stepText false envBase initSession
        (.json { jsonBase with isSpeaking := some false })).offlineCalls = 0 ∧
    (stepText false envBase initSession
        (.json { jsonBase with isSpeaking := some false })).out = [] ∧
    processAsrOffline false envBase initSession [] = ⟨initSession, [], 0⟩ := by
  have h := c7_empty_buffer_no_offline false envBase initSession
  exact ⟨(h.1 _ rfl rfl rfl).1, (h.1 _ rfl rfl rfl).2, h.2⟩

/-- C5: immediately after any offline flush — whether triggered by a client
`is_speaking = false` control message or by a VAD-detected speech end — both
`frames_asr` and `frames_asr_online` are empty and the retained frame
history has length at most 20. -/
theorem c5_flush_post_state (hp : Bool) (env : Env) (s : Session) :
    (∀ j : MsgJson, j.typePing = false → j.isSpeaking = some false →
      s.framesAsr ≠ [] →
      (stepText hp env s (.json j)).sess.framesAsr = [] ∧
      (stepText hp env s (.json j)).sess.framesAsrOnline = [] ∧
      (stepText hp env s (.json j)).sess.frames.length ≤ 20) ∧
    (∀ f : Frame, s.chunkInterval ≠ 0 → env.vadThrows = false →
      (vadSegValues env.vadSegments).2 ≠ -1 →
      ∃ st : StepOut, stepBinary hp env s f = .ok st ∧
        st.sess.framesAsr = [] ∧ st.sess.framesAsrOnline = [] ∧
        st.sess.frames.length ≤ 20) := by
  constructor
  · intro j hping hstop hne
    rw [stepText_stop_eq hp env s j hping hstop hne]
    obtain ⟨hA, hB, hC, -, -, -, -, -⟩ :=
      applyConfig_buffers j
        (clientStopReset (offlineFlushPass hp env (speakingAssign s false)).sess)
    refine ⟨?_, ?_, ?_⟩
    · simpa [clientStopReset] using hA
    · simpa [clientStopReset] using hB
    · rw [hC]
      simp [clientStopReset]
  · intro f hci hv he
    refine ⟨_, stepBinary_flush_eq hp env s f hci hv he, ?_, ?_, ?_⟩
    · simp [vadFlushReset]
    · simp [vadFlushReset]
    · simp only [vadFlushReset]
      exact pyLastN_length_le _ 20

/-- Witness for C5: a client stop with one buffered frame empties both
queues; a VAD end on a binary frame does the same and bounds the history. -/
theorem c5_flush_post_state_witness :
    ((stepText false envBase { initSession with framesAsr := [[1]] }
        (.json { jsonBase with isSpeaking := some false })).sess.framesAsr = [] ∧
     (stepText false envBase { initSession with framesAsr := [[1]] }
        (.json { jsonBase with isSpeaking := some false })).sess.framesAsrOnline = [] ∧
     (stepText false envBase { initSession with framesAsr := [[1]] }
        (.json { jsonBase with isSpeaking := some false })).sess.frames.length ≤ 20) ∧
    (∃ st : StepOut,
      stepBinary false { envBase with vadSegments := [(-1, 100)] } initSession [1] =
        .ok st ∧
      st.sess.framesAsr = [] ∧ st.sess.framesAsrOnline = [] ∧
      st.sess.frames.length ≤ 20) :=
  ⟨(c5_flush_post_state false envBase { initSession with framesAsr := [[1]] }).1 _
      rfl rfl (by decide),
   (c5_flush_post_state false { envBase with vadSegments := [(-1, 100)] }
      initSession).2 [1] (by decide) rfl (by decide)⟩

/-- C9: for every session mode string — including `"online"` and
unrecognised values, where no offline pass runs — a VAD-detected speech end
on an audio frame still clears `frames_asr` and `frames_asr_online`, resets
the online ASR cache to empty, and truncates the retained history to its
last 20 entries: the resets are not conditioned on the mode check gating the
offline-pass invocation. -/
theorem c9_vad_end_resets_any_mode (hp : Bool) (env : Env) (s : Session)
    (f : Frame) :
    s.chunkInterval ≠ 0 → env.vadThrows = false →
    (vadSegValues env.vadSegments).2 ≠ -1 →
    ∃ st : StepOut, stepBinary hp env s f = .ok st ∧
      st.sess.framesAsr = [] ∧ st.sess.framesAsrOnline = [] ∧
      st.sess.asrOnlineCache = 0 ∧
      st.sess.frames = pyLastN (s.frames ++ [f]) 20 := by
  intro hci hv he
  refine ⟨_, stepBinary_flush_eq hp env s f hci hv he, ?_, ?_, ?_, ?_⟩
  · simp [vadFlushReset]
  · simp [vadFlushReset]
  · simp [vadFlushReset]
  · simp only [vadFlushReset]
    rw [offlineFlushPass_frames, flushSource_frames, onlinePhase_frames]
    rfl

/-- Witness for C9: the resets fire even in mode `"online"`, where the
offline pass is skipped. -/
theorem c9_vad_end_resets_any_mode_witness :
    ∃ st : StepOut,
      stepBinary false { envBase with vadSegments := [(-1, 7)] }
        { initSession with mode := "online" } [2] = .ok st ∧
      st.sess.framesAsr = [] ∧ st.sess.framesAsrOnline = [] ∧
      st.sess.asrOnlineCache = 0 ∧
      st.sess.frames =
        pyLastN (({ initSession with mode := "online" } : Session).frames ++ [[2]]) 20 :=
  c9_vad_end_resets_any_mode false { envBase with vadSegments := [(-1, 7)] }
    { initSession with mode := "online" } [2] (by decide) rfl (by decide)

/-- Engine oracle for the C6 counterexample: VAD reports a speech end with
segment `[-1, 100]` and leaves a non-empty cache token `5`. -/
def c6Env : Env := { envBase with vadSegments := [(-1, 100)], vadNewCache := 5 }

/-- The session state the C6 counterexample run ends in. -/
def c6Sess : Session :=
  { initSession with
    vadCache := 5,
    speechStartI := some (-1),
    speechEndI := 100,
    frames := [[1]],
    vadEndSinceOnline := true }

/-- C6 counterexample: a VAD-detected speech end on a fresh session. The
flush runs, yet afterwards the VAD cache still holds the engine-updated
token `5` (it is not cleared) and the rolling frame history still holds the
frame (it is truncated to the last 20 entries, not cleared) — so the two
flush paths do *not* reset the same state: only the client-stop path clears
the VAD cache and the history. -/
theorem c6_counterexample :
    stepBinary false c6Env initSession [1] =
      .ok ⟨c6Sess, [OutMsg.result "2pass-offline" "a" "microphone" true], 1, 0⟩ ∧
    c6Sess.vadCache ≠ 0 ∧ c6Sess.frames ≠ [] := by
  refine ⟨rfl, by decide, by decide⟩

/-- C6 amended: both flush paths clear the two ASR queues, empty the online
ASR cache, and lower `speech_start`; but only the client-stop path
additionally clears the VAD cache, resets `vad_pre_idx` and empties the
whole frame history, while the VAD-end path keeps the engine-updated VAD
cache and retains the last 20 frames. -/
theorem c6_amended_flush_resets (hp : Bool) (env : Env) (s : Session) :
    (∀ j : MsgJson, j.typePing = false → j.isSpeaking = some false →
      s.framesAsr ≠ [] →
      (stepText hp env s (.json j)).sess.framesAsr = [] ∧
      (stepText hp env s (.json j)).sess.framesAsrOnline = [] ∧
      (stepText hp env s (.json j)).sess.asrOnlineCache = 0 ∧
      (stepText hp env s (.json j)).sess.speechStart = false ∧
      (stepText hp env s (.json j)).sess.vadCache = 0 ∧
      (stepText hp env s (.json j)).sess.vadPreIdx = 0 ∧
      (stepText hp env s (.json j)).sess.frames = []) ∧
    (∀ f : Frame, s.chunkInterval ≠ 0 → env.vadThrows = false →
      (vadSegValues env.vadSegments).2 ≠ -1 →
      ∃ st : StepOut, stepBinary hp env s f = .ok st ∧
        st.sess.framesAsr = [] ∧ st.sess.framesAsrOnline = [] ∧
        st.sess.asrOnlineCache = 0 ∧ st.sess.speechStart = false ∧
        st.sess.vadCache = env.vadNewCache ∧
        st.sess.frames = pyLastN (s.frames ++ [f]) 20) := by
  constructor
  · intro j hping hstop hne
    rw [stepText_stop_eq hp env s j hping hstop hne]
    obtain ⟨hA, hB, hC, hD, hE, hF, hG, -⟩ :=
      applyConfig_buffers j
        (clientStopReset (offlineFlushPass hp env (speakingAssign s false)).sess)
    refine ⟨?_, ?_, ?_, ?_, ?_, ?_, ?_⟩
    · simpa [clientStopReset] using hA
    · simpa [clientStopReset] using hB
    · simpa [clientStopReset] using hG
    · simpa [clientStopReset] using hF
    · simpa [clientStopReset] using hD
    · simpa [clientStopReset] using hE
    · simpa [clientStopReset] using hC
  · intro f hci hv he
    refine ⟨_, stepBinary_flush_eq hp env s f hci hv he, ?_, ?_, ?_, ?_, ?_, ?_⟩
    · simp [vadFlushReset]
    · simp [vadFlushReset]
    · simp [vadFlushReset]
    · simp [vadFlushReset]
    · simp only [vadFlushReset]
      rw [offlineFlushPass_vadCache, flushSource_vadCache _ _ hv]
    · simp only [vadFlushReset]
      rw [offlineFlushPass_frames, flushSource_frames, onlinePhase_frames]
      rfl

/-- Witness for C6 (amended): concrete client-stop flush clears everything
including the VAD cache; concrete VAD-end flush keeps the engine-updated
VAD cache and the last frames. -/
theorem c6_amended_flush_resets_witness :
    ((stepText false envBase { initSession with framesAsr := [[1]], vadCache := 9 }
        (.json { jsonBase with isSpeaking := some false })).sess.vadCache = 0 ∧
     (stepText false envBase { initSession with framesAsr := [[1]], vadCache := 9 }
        (.json { jsonBase with isSpeaking := some false })).sess.frames = []) ∧
    (∃ st : StepOut, stepBinary false c6Env initSession [1] = .ok st ∧
      st.sess.framesAsr = [] ∧ st.sess.framesAsrOnline = [] ∧
      st.sess.asrOnlineCache = 0 ∧ st.sess.speechStart = false ∧
      st.sess.vadCache = c6Env.vadNewCache ∧
      st.sess.frames = pyLastN (initSession.frames ++ [[1]]) 20) := by
  constructor
  · have h := (c6_amended_flush_resets false envBase
      { initSession with framesAsr := [[1]], vadCache := 9 }).1
      { jsonBase with isSpeaking := some false } rfl rfl (by decide)
    exact ⟨h.2.2.2.2.1, h.2.2.2.2.2.2⟩
  · exact (c6_amended_flush_resets false c6Env initSession).2 [1]
      (by decide) rfl (by decide)

/-- The two-message C4 counterexample trace: the client declares
`is_speaking = false` (no audio buffered, so no flush), then one binary
frame arrives with VAD reporting no boundary; no online pass is ever
invoked. -/
def c4Trace : List (Env × InMsg) :=
  [(envBase, .text (.json { jsonBase with isSpeaking := some false })),
   (envBase, .binary [1])]

/-- The session state the C4 counterexample trace ends in. -/
def c4Sess : Session :=
  { initSession with
    isSpeaking := false,
    vadCache := 1,
    speechStartI := some (-1),
    frames := [[1]],
    framesAsr := [[1]],
    framesAsrOnline := [[1]],
    stopDeclaredSinceOnline := true }

/-- C4 counterexample: after the trace, the client has declared
`is_speaking = false` since the last online pass invocation (there has been
none — the ghost flag is `true`), yet `asrOnlineCache.isFinal` is `false`:
line 270 overwrote it on the binary frame with the previous VAD verdict.
The claimed "if and only if" invariant therefore fails. -/
theorem c4_counterexample :
    serveRun false c4Trace initSession = .ok ⟨c4Sess, [], 0, 0⟩ ∧
    c4Sess.asrOnlineFinal = false ∧
    c4Sess.stopDeclaredSinceOnline = true := ⟨rfl, rfl, rfl⟩

/-- C4 amended: `asrOnlineCache.isFinal` equals `¬ isSpeaking` immediately
after a control message carrying `is_speaking`, and after each binary-frame
step it equals whether the *previous* frame's VAD call reported a speech
end — the flag is overwritten on every binary frame before the trigger
check, so neither a client stop nor a VAD end persists in it beyond the
next frame. -/
theorem c4_amended_isfinal (hp : Bool) (env : Env) (s : Session) :
    (∀ (j : MsgJson) (b : Bool), j.typePing = false → j.isSpeaking = some b →
      (stepText hp env s (.json j)).sess.asrOnlineFinal = !b) ∧
    (∀ (f : Frame) (st : StepOut), stepBinary hp env s f = .ok st →
      st.sess.asrOnlineFinal = decide (s.speechEndI ≠ -1)) := by
  constructor
  · intro j b hping hsp
    exact stepText_isSpeaking_final hp env s j b hping hsp
  · intro f st h
    by_cases hci : s.chunkInterval = 0
    · rw [stepBinary_zeroDiv hp env s f hci] at h
      exact absurd h (by simp)
    · rw [stepBinary_eq hp env s f hci] at h
      cases hq : vadFlushPhase hp env
          (onlinePhase env (binTrig s) (appendFrame s f)).sess with
      | error e =>
        rw [hq] at h
        exact absurd h (by simp)
      | ok q =>
        rw [hq] at h
        dsimp only at h
        injection h with h'
        rw [← h']
        dsimp only
        rw [vadFlushPhase_asrOnlineFinal hp env _ q hq, onlinePhase_asrOnlineFinal]
        rfl

/-- The step result used to witness the binary part of C4 (amended). -/
def c4St : StepOut :=
  ⟨{ initSession with
     vadCache := 1,
     speechStartI := some (-1),
     frames := [[1]],
     framesAsr := [[1]],
     framesAsrOnline := [[1]] }, [], 0, 0⟩

/-- Witness for C4 (amended) at concrete inputs: a stop message raises the
flag; on a fresh session a binary frame leaves it at `false` since the
initial `speech_end_i` is `-1`. -/
theorem c4_amended_isfinal_witness :
    (stepText false envBase initSession
        (.json { jsonBase with isSpeaking := some false })).sess.asrOnlineFinal =
      !false ∧
    c4St.sess.asrOnlineFinal = decide (initSession.speechEndI ≠ -1) :=
  ⟨(c4_amended_isfinal false envBase initSession).1 _ false rfl rfl,
   (c4_amended_isfinal false envBase initSession).2 [1] c4St rfl⟩

/-- Engine oracle in which the offline ASR engine raises. -/
def c1EnvThrow : Env := { envBase with offThrows := true }

/-- The C1 counterexample trace: one binary frame is buffered (VAD reports
no boundary), then the client declares `is_speaking = false` while the
offline engine raises during the flush. -/
def c1Trace : List (Env × InMsg) :=
  [(envBase, .binary [1]),
   (c1EnvThrow, .text (.json { jsonBase with isSpeaking := some false }))]

/-- The session state after only the first (binary) message of `c1Trace`:
the offline queue holds the frame. -/
def c1MidSess : Session :=
  { initSession with
    vadCache := 1,
    speechStartI := some (-1),
    frames := [[1]],
    framesAsr := [[1]],
    framesAsrOnline := [[1]] }

/-- The session state after the whole `c1Trace`. -/
def c1EndSess : Session :=
  { initSession with
    asrOnlineFinal := true,
    isSpeaking := false,
    speechStartI := some (-1),
    stopDeclaredSinceOnline := true }

/-- C1 counterexample: before the stop message the offline queue holds one
frame; the flush invokes the offline engine (`offlineCalls = 1`), the engine
throws, the session survives and nothing is sent — but afterwards
`frames_asr` and `frames_asr_online` are empty: the queues do *not* retain
the pre-call buffer state, because the reset at lines 234-240 runs outside
the `try`/`except`, so the buffered audio is dropped and no retry over it is
possible. -/
theorem c1_counterexample :
    serveRun false [(envBase, .binary [1])] initSession = .ok ⟨c1MidSess, [], 0, 0⟩ ∧
    c1MidSess.framesAsr = [[1]] ∧
    serveRun false c1Trace initSession = .ok ⟨c1EndSess, [], 1, 0⟩ ∧
    c1EndSess.framesAsr = [] ∧ c1EndSess.framesAsrOnline = [] :=
  ⟨rfl, rfl, rfl, rfl, rfl⟩

/-- C1 amended: when the offline engine throws during a flush (client-stop
or VAD speech-end trigger), the session is not terminated and the flush
itself produces no output, but the buffered queues are cleared exactly as on
a successful flush — `frames_asr` and `frames_asr_online` are emptied, the
buffered audio is dropped, and no retry over it is possible. -/
theorem c1_amended_failed_flush (hp : Bool) (env : Env) (s : Session) :
    (∀ j : MsgJson, j.typePing = false → j.isSpeaking = some false →
      s.framesAsr ≠ [] → s.framesAsr.flatten ≠ [] →
      (s.mode = "2pass" ∨ s.mode = "offline") → env.offThrows = true →
      (stepText hp env s (.json j)).offlineCalls = 1 ∧
      (stepText hp env s (.json j)).out = [] ∧
      (stepText hp env s (.json j)).sess.framesAsr = [] ∧
      (stepText hp env s (.json j)).sess.framesAsrOnline = []) ∧
    (∀ f : Frame, s.chunkInterval ≠ 0 → env.vadThrows = false →
      (vadSegValues env.vadSegments).2 ≠ -1 → env.offThrows = true →
      (s.mode = "2pass" ∨ s.mode = "offline") →
      (s.framesAsr ++ [f]).flatten ≠ [] →
      ∃ st : StepOut, stepBinary hp env s f = .ok st ∧
        st.offlineCalls = 1 ∧
        st.out = (onlinePhase env (binTrig s) (appendFrame s f)).out ∧
        st.sess.framesAsr = [] ∧ st.sess.framesAsrOnline = []) := by
  constructor
  · intro j hping hstop hne hfa hmode hthrow
    rw [stepText_stop_eq hp env s j hping hstop hne]
    have hmode' : (speakingAssign s false).mode = "2pass" ∨
        (speakingAssign s false).mode = "offline" := hmode
    have hlen : ¬((speakingAssign s false).framesAsr.flatten.length = 0) := by
      simp only [speakingAssign]
      rw [List.length_eq_zero]
      exact hfa
    obtain ⟨hA, hB, -, -, -, -, -, -⟩ :=
      applyConfig_buffers j
        (clientStopReset (offlineFlushPass hp env (speakingAssign s false)).sess)
    refine ⟨?_, ?_, ?_, ?_⟩
    · show (offlineFlushPass hp env (speakingAssign s false)).calls = 1
      rw [offlineFlushPass_calls hp env _ hmode', if_neg hlen]
    · exact offlineFlushPass_out_throw hp env _ hthrow
    · simpa [clientStopReset] using hA
    · simpa [clientStopReset] using hB
  · intro f hci hv he hthrow hmode hfa
    refine ⟨_, stepBinary_flush_eq hp env s f hci hv he, ?_, ?_, ?_, ?_⟩
    · show (offlineFlushPass hp env
          (flushSource env (onlinePhase env (binTrig s) (appendFrame s f)).sess)).calls = 1
      have hm : (flushSource env (onlinePhase env (binTrig s) (appendFrame s f)).sess).mode
          = s.mode := by
        rw [flushSource_mode, onlinePhase_mode]
        rfl
      have hmode' : (flushSource env (onlinePhase env (binTrig s) (appendFrame s f)).sess).mode
          = "2pass" ∨
          (flushSource env (onlinePhase env (binTrig s) (appendFrame s f)).sess).mode
          = "offline" := by
        rw [hm]
        exact hmode
      have hfr : (flushSource env (onlinePhase env (binTrig s) (appendFrame s f)).sess).framesAsr
          = s.framesAsr ++ [f] := by
        rw [flushSource_framesAsr, onlinePhase_framesAsr]
        rfl
      have hlen : ¬((flushSource env
          (onlinePhase env (binTrig s) (appendFrame s f)).sess).framesAsr.flatten.length = 0) := by
        rw [hfr, List.length_eq_zero]
        exact hfa
      rw [offlineFlushPass_calls hp env _ hmode', if_neg hlen]
    · show (onlinePhase env (binTrig s) (appendFrame s f)).out ++
          (offlineFlushPass hp env
            (flushSource env (onlinePhase env (binTrig s) (appendFrame s f)).sess)).out =
          (onlinePhase env (binTrig s) (appendFrame s f)).out
      rw [offlineFlushPass_out_throw hp env _ hthrow, List.append_nil]
    · simp [vadFlushReset]
    · simp [vadFlushReset]

/-- Witness for C1 (amended): concrete failed client-stop flush and failed
VAD-end flush, each surviving with cleared queues and no output. -/
theorem c1_amended_failed_flush_witness :
    ((stepText false c1EnvThrow { initSession with framesAsr := [[1]] }
        (.json { jsonBase with isSpeaking := some false })).offlineCalls = 1 ∧
     (stepText false c1EnvThrow { initSession with framesAsr := [[1]] }
        (.json { jsonBase with isSpeaking := some false })).out = [] ∧
     (stepText false c1EnvThrow { initSession with framesAsr := [[1]] }
        (.json { jsonBase with isSpeaking := some false })).sess.framesAsr = []) ∧
    (∃ st : StepOut,
      stepBinary false { c1EnvThrow with vadSegments := [(-1, 100)] } initSession [1] =
        .ok st ∧
      st.offlineCalls = 1 ∧
      st.out = (onlinePhase { c1EnvThrow with vadSegments := [(-1, 100)] }
        (binTrig initSession) (appendFrame initSession [1])).out ∧
      st.sess.framesAsr = [] ∧ st.sess.framesAsrOnline = []) := by
  constructor
  · have h := (c1_amended_failed_flush false c1EnvThrow
      { initSession with framesAsr := [[1]] }).1
      { jsonBase with isSpeaking := some false } rfl rfl (by decide) (by decide)
      (Or.inl rfl) rfl
    exact ⟨h.1, h.2.1, h.2.2.1⟩
  · exact (c1_amended_failed_flush false
      { c1EnvThrow with vadSegments := [(-1, 100)] } initSession).2 [1]
      (by decide) rfl (by decide) rfl (Or.inl rfl) (by decide)

/-- Scenario B trace for C2: the client configures mode `"2pass"` and
`chunk_interval = 2`, then sends four audio frames during which VAD reports
no boundary. -/
def c2Trace : List (Env × InMsg) :=
  [(envBase, .text (.json { jsonBase with chunkInterval := some 2, mode := some "2pass" })),
   (envBase, .binary [0]), (envBase, .binary [0]),
   (envBase, .binary [0]), (envBase, .binary [0])]

/-- C2: Scenario B produces exactly two online-pass engine calls — one after
frame 2 and one after frame 4 — and zero offline-pass calls; in general, on
each binary frame (no VAD boundary) the online pass runs exactly when the
grown queue length is a multiple of `chunk_interval` or the carried-over
`is_final` flag is set (`binTrig`), in which case the non-empty joined queue
is passed to the engine exactly once and the queue is cleared, and otherwise
no call is made and the queue keeps accumulating. -/
theorem c2_online_pass_schedule (hp : Bool) (env : Env) (s : Session) (f : Frame) :
    ((serveRun false c2Trace initSession).toOption.map
        (fun r => (r.onlineCalls, r.offlineCalls)) = some (2, 0) ∧
     (serveRun false (c2Trace.take 2) initSession).toOption.map
        (fun r => r.onlineCalls) = some 0 ∧
     (serveRun false (c2Trace.take 3) initSession).toOption.map
        (fun r => r.onlineCalls) = some 1 ∧
     (serveRun false (c2Trace.take 4) initSession).toOption.map
        (fun r => r.onlineCalls) = some 1) ∧
    (s.chunkInterval ≠ 0 → (s.mode = "2pass" ∨ s.mode = "online") →
      env.vadThrows = false → (vadSegValues env.vadSegments).2 = -1 →
      ∃ st : StepOut, stepBinary hp env s f = .ok st ∧
        st.onlineCalls =
          (if binTrig s
           then (if (s.framesAsrOnline ++ [f]).flatten.length = 0 then 0 else 1)
           else 0) ∧
        st.sess.framesAsrOnline =
          (if binTrig s then [] else s.framesAsrOnline ++ [f])) := by
  constructor
  · exact ⟨rfl, rfl, rfl, rfl⟩
  · intro hci hmode hv he
    have hmode' : (appendFrame s f).mode = "2pass" ∨ (appendFrame s f).mode = "online" :=
      hmode
    rw [stepBinary_eq hp env s f hci, vadFlushPhase_noflush_eq hp env _ hv he]
    dsimp only
    refine ⟨_, rfl, ?_, ?_⟩
    · rw [onlinePhase_calls env (binTrig s) (appendFrame s f) hmode']
      rfl
    · rw [apply_ite Session.framesAsrOnline]
      dsimp only
      rw [vadUpdate_framesAsrOnline, ite_self, onlinePhase_queue]
      rfl

/-- Witness for C2 (general part) at a concrete input: on a fresh session
(chunk interval 10, queue empty, no previous VAD end) the first frame
triggers no online call and the queue keeps the frame. -/
theorem c2_online_pass_schedule_witness :
    ∃ st : StepOut, stepBinary false envBase initSession [0] = .ok st ∧
      st.onlineCalls =
        (if binTrig initSession
         then (if (initSession.framesAsrOnline ++ [[0]]).flatten.length = 0 then 0 else 1)
         else 0) ∧
      st.sess.framesAsrOnline =
        (if binTrig initSession then [] else initSession.framesAsrOnline ++ [[0]]) :=
  (c2_online_pass_schedule false envBase initSession [0]).2
    (by decide) (Or.inl rfl) rfl rfl

end FunasrWss
